import Mathlib

/-!
Verification development for the multi-agent conductor server (src/server.js).

The JavaScript source is shallowly embedded: every pure computation is a Lean
function, the in-memory agent store is threaded explicitly as a list, and the
external collaborators (the OpenAI chat-completions endpoint, JSON.parse,
JSON.stringify, fs.writeFileSync, and the file-system tool discovery performed
by getTools) are bundled into an `Env` record of oracle functions.  A thrown
JavaScript exception is modelled as `Except.error` carrying the error message;
the try/catch in getCompletionFromAgent and in the start-conversation route are
embedded as explicit matches on that `Except`.
-/

/-- JSON values, the carrier for tool arguments and tool results. -/
inductive Json where
  | null : Json
  | bool : Bool → Json
  | num : Int → Json
  | str : String → Json
  | arr : List Json → Json
  | obj : List (String × Json) → Json

/-- The `function` part of an OpenAI v2 tool call: tool_calls[0].function
carries a name and a raw JSON argument string (which may be absent). -/
structure ToolCallFunction where
  name : String
  arguments : Option String
deriving DecidableEq

/-- One entry of message.tool_calls in an OpenAI v2 chat response. -/
structure ToolCall where
  id : String
  function : ToolCallFunction
deriving DecidableEq

/-- A chat message.  JavaScript message objects are duck-typed records with
optional fields; every field the server reads or writes is represented as an
`Option` (none = the property is absent, null or undefined).  The same type
covers transcript entries and the message objects returned by the model (the
conductor pushes a raw model message into the transcript on a tool round-trip,
so one permissive record type is the faithful embedding). -/
structure Message where
  role : Option String := none
  content : Option String := none
  name : Option String := none
  tool_call_id : Option String := none
  tool_calls : Option (List ToolCall) := none
deriving DecidableEq

/-- The `details` object exported by a tool module.  Tool modules live outside
src/server.js (they are loaded dynamically from a ./tools directory), so their
shape is external; the server itself only ever reads the `name` property of a
details object (in the /add-tool duplicate check) and otherwise passes the
object opaquely to the model as a schema.  The name is therefore an
`Option String` (reading a missing property yields undefined in JavaScript). -/
structure ToolDetails where
  name : Option String
deriving DecidableEq

/-- A discovered tool: the pair of exports getTools builds for each module
file, openAIFunctions[moduleName] = (details, execute).  `execute` receives the
positional argument list Object.values(parsedArgs) and may throw
(`Except.error`). -/
structure ToolEntry where
  details : ToolDetails
  execute : List Json → Except String Json

/-- An agent record as built by createAgent in src/server.js (lines 80-89).
`tools` holds the values pushed by the /add-tool route; because that route
pushes tools[toolName] without checking presence, an entry can be undefined,
hence `Option ToolEntry`. -/
structure Agent where
  id : Int
  name : String
  model : String
  systemMsg : Option String
  tools : List (Option ToolEntry)
  history : List Message

/-- The payload of one openai.chat.completions.create call: model, messages
and the optional tools array (tool_choice is the constant "auto" whenever
tools are passed, so it carries no information and is omitted). -/
structure ChatPayload where
  model : String
  messages : List Message
  tools : Option (List ToolDetails)

/-- The external collaborators of src/server.js as oracle functions.
`chat` returns response.choices[0].message of a chat-completions call
(ok none = the message property is present but null or undefined;
error = the call threw, including network and provider failures).
`parseJson` models JSON.parse on a tool-call argument string, returning the
object as an ordered field list (none = parse error, i.e. JSON.parse threw).
`stringify` models JSON.stringify.  `writeFile` models the
fs.writeFileSync of extracted code (line 127).  `getTools` models the
getTools function (lines 342-360): it scans ./tools on every call and either
throws (error) or yields the moduleName-to-entry mapping as an ordered list. -/
structure Env where
  chat : ChatPayload → Except String (Option Message)
  parseJson : String → Option (List (String × Json))
  stringify : Json → String
  writeFile : String → Except String Unit
  getTools : Except String (List (String × ToolEntry))

/-- JavaScript a || b for strings: a unless a is undefined, null or "". -/
def jsOr : Option String → String → String
  | some s, d => if s = "" then d else s
  | none, d => d

/-- Line 103: the default system prompt. -/
def defaultSystemPrompt : String := "You are a helpful agent."

/-- Lines 101-104: the system message prepended to the transcript. -/
def systemMessage (agent : Agent) : Message :=
  { role := some "system", content := some (jsOr agent.systemMsg defaultSystemPrompt) }

/-- Line 110: Object.values(agent.tools).map(toolObj => toolObj.details).
Reading .details of an undefined array entry throws a TypeError; note this
line runs OUTSIDE the try block, so such a throw propagates to the caller. -/
def schemaOf : List (Option ToolEntry) → Except String (List ToolDetails)
  | [] => .ok []
  | none :: _ => .error "TypeError: Cannot read properties of undefined (reading details)"
  | some t :: rest => (schemaOf rest).map (fun l => t.details :: l)

/-- The backtick character (code point 96). -/
def backtickChar : Char := Char.ofNat 96

/-- Whether a character list starts with the three-backtick fence. -/
def isFenceStart : List Char → Bool
  | a :: b :: c :: _ => a == backtickChar && b == backtickChar && c == backtickChar
  | _ => false

/-- Splits a character list on non-overlapping occurrences of the
three-backtick fence, scanning left to right (the semantics of the repeated
indexOf scan the JavaScript code performs on the fence marker). -/
def splitOnFence : List Char → List (List Char)
  | [] => [[]]
  | a :: rest =>
    if isFenceStart (a :: rest) then
      match rest with
      | _ :: _ :: rest2 => [] :: splitOnFence rest2
      | _ => [[]]
    else
      match splitOnFence rest with
      | [] => [[a]]
      | h :: t => (a :: h) :: t

/-- Line 121: content.includes of the triple-backtick fence (substring test). -/
def hasCodeFence (s : String) : Bool := (splitOnFence s.data).length != 1

/-- Rejoins split parts with the fence marker. -/
def joinFence : List String → String
  | [] => ""
  | [s] => s
  | s :: rest => s ++ "```" ++ joinFence rest

/-- Lines 122-124: content.substring(indexOf + 3, lastIndexOf): the text
between the end of the first fence occurrence and the start of the last one.
With a single fence occurrence the start index exceeds the end index and
JavaScript substring swaps its bounds, yielding the fence itself. -/
def extractCode (s : String) : String :=
  let parts := (splitOnFence s.data).map (fun cs => String.mk cs)
  if parts.length ≤ 2 then "```"
  else joinFence ((parts.drop 1).dropLast)

/-- Error message of the TypeError thrown at line 151 when message.tool_calls
is undefined and the code evaluates message.tool_calls[0]. -/
def typeErrorToolCalls : String :=
  "TypeError: Cannot read properties of undefined (reading 0)"

/-- Object lookup tools[fnName] on the mapping built by getTools. -/
def lookupTool (reg : List (String × ToolEntry)) (k : String) : Option ToolEntry :=
  (reg.find? (fun p => p.1 == k)).map Prod.snd

/-- The value getCompletionFromAgent returns.  JavaScript returns one of five
duck-typed record shapes; this one permissive record covers them all, with
absent properties as none.  The JavaScript `message` property holds a string
in one shape and a message list in another, so it is split into `messageStr`
and `messageList`. -/
structure AgentResult where
  role : Option String := none
  content : Option String := none
  tool_call : Option (String × List (String × Json)) := none
  model : Option String := none
  messageStr : Option String := none
  messageList : Option (List Message) := none
  error : Option String := none
  details : Option String := none

/-- Line 210: the value produced by the catch block of getCompletionFromAgent. -/
def errorResult (details : String) : AgentResult :=
  { error := some "OpenAI API failed", details := some details }

/-- Line 203 and line 207: the bare fallback value. -/
def noFnResult : AgentResult := { messageStr := some "No function call detected." }

/-- The body of the try block of getCompletionFromAgent (lines 112-208),
translated branch for branch.  The returned list is the state of the caller
visible `messages` array after the call (the tool round-trip mutates it in
place at lines 179-180, and that mutation survives a later throw).  The inner
`Except.error` is a throw that the catch at line 209 will convert; `.ok none`
is the fall-through path that returns undefined (schema empty, no fence,
tool_calls present but empty, so the if at line 151 is skipped and the
function body ends without a return).

Control-flow notes justifying the translation:
the else arm at lines 134-141 re-binds a block-local response whose value is
discarded, after which line 142 reads the FIRST response again; the check at
lines 143-148 can never fire (a falsy message would already have thrown at
line 121 when .content was read), so the "(No content returned.)" return is
dead code and has no branch here; and the else arm at lines 206-208 belongs
to the if at line 115, so an agent whose schema list is non-empty returns the
bare fallback value without any model call. -/
def respTry (env : Env) (agent : Agent) (messages chatMessages : List Message)
    (schema : List ToolDetails) : List Message × Except String (Option AgentResult) :=
  if schema.length = 0 then
    match env.chat { model := agent.model, messages := chatMessages, tools := none } with
    | .error e => (messages, .error e)
    | .ok none =>
        (messages, .error "TypeError: Cannot read properties of null (reading content)")
    | .ok (some m1) =>
      match m1.content with
      | none =>
          (messages, .error "TypeError: Cannot read properties of null (reading includes)")
      | some c =>
        if hasCodeFence c then
          match env.writeFile (extractCode c) with
          | .error e => (messages, .error e)
          | .ok _ => (messages, .ok (some { role := some "assistant", content := some c }))
        else
          match env.chat { model := agent.model, messages := chatMessages,
                           tools := some schema } with
          | .error e => (messages, .error e)
          | .ok _ =>
            match m1.tool_calls with
            | none => (messages, .error typeErrorToolCalls)
            | some [] => (messages, .ok none)
            | some (tc :: _) =>
              let rawArgs := jsOr tc.function.arguments "\x7b\x7d"
              let parsedArgs := (env.parseJson rawArgs).getD []
              match env.getTools with
              | .error e => (messages, .error e)
              | .ok allTools =>
                match lookupTool allTools tc.function.name with
                | some entry =>
                  match entry.execute (parsedArgs.map Prod.snd) with
                  | .error e => (messages, .error e)
                  | .ok result =>
                    let toolResultMsg : Message :=
                      { role := some "tool", name := some tc.function.name,
                        content := some (env.stringify result),
                        tool_call_id := some tc.id }
                    let messages2 := messages ++ [m1, toolResultMsg]
                    match env.chat { model := agent.model, messages := messages2,
                                     tools := none } with
                    | .error e => (messages2, .error e)
                    | .ok none =>
                        (messages2,
                         .error "TypeError: Cannot read properties of null (reading content)")
                    | .ok (some fm) =>
                      (messages2, .ok (some
                        { role := some "assistant",
                          tool_call := some (tc.function.name, parsedArgs),
                          model := some agent.model,
                          content := fm.content,
                          messageList := some messages2 }))
                | none => (messages, .ok (some noFnResult))
  else
    (messages, .ok (some noFnResult))

/-- getCompletionFromAgent (src/server.js lines 99-212).  The outer
`Except.error` is an exception escaping the function (only possible from the
schema construction at line 110, which runs before the try block); everything
thrown inside the try is caught at line 209 and turned into the ordinary
errorResult value.  The second component is the caller visible state of the
`messages` argument after the call. -/
def getCompletionFromAgent (env : Env) (agent : Agent) (messages : List Message) :
    Except String (Option AgentResult × List Message) :=
  let chatMessages := systemMessage agent :: messages
  match schemaOf agent.tools with
  | .error e => .error e
  | .ok schema =>
    let out := respTry env agent messages chatMessages schema
    match out.2 with
    | .ok r => .ok (r, out.1)
    | .error e => .ok (some (errorResult e), out.1)

/-- The loop state of runMultiAgentConductor: result.messages, turnCount and
agentIndex (lines 228-233). -/
structure ConductorState where
  messages : List Message
  turnCount : Nat
  agentIndex : Nat
deriving DecidableEq

/-- agents.find(a => a.id === agentId) at line 237, where agentId is
agentIds[agentIndex] and may be undefined when the index is out of range. -/
def findAgent (store : List Agent) (agentId : Option Int) : Option Agent :=
  store.find? (fun a => match agentId with
    | some n => a.id == n
    | none => false)

/-- Template string interpolation of the agent id at line 241. -/
def jsShowId : Option Int → String
  | none => "undefined"
  | some n => toString n

/-- The diagnostic system message pushed at lines 239-243. -/
def notFoundMessage (agentId : Option Int) : Message :=
  { role := some "system",
    content := some ("Agent with id=" ++ jsShowId agentId ++ " not found. Stopping.") }

/-- The transcript entry the conductor pushes for an agent reply at lines
250-253: only the role and content properties of the responder result are
copied (each may be undefined); in particular no name property is set. -/
def conductorEntry (resp : AgentResult) : Message :=
  { role := resp.role, content := resp.content }

/-- The while loop of runMultiAgentConductor (lines 235-268), with the
remaining turn budget max_turns - turnCount as structural fuel.  A turn whose
responder call returns undefined makes the push at lines 250-253 read
agentResponse.role of undefined, which throws; the conductor has no try/catch,
so that is `Except.error` here. -/
def conductorLoop (env : Env) (store : List Agent) (agentIds : List Int) :
    Nat → ConductorState → Except String ConductorState
  | 0, st => .ok st
  | fuel + 1, st =>
    let agentId := agentIds.get? st.agentIndex
    match findAgent store agentId with
    | none => .ok { st with messages := st.messages ++ [notFoundMessage agentId] }
    | some agent =>
      match getCompletionFromAgent env agent st.messages with
      | .error e => .error e
      | .ok (none, _) =>
          .error "TypeError: Cannot read properties of undefined (reading role)"
      | .ok (some agentResponse, messages2) =>
        conductorLoop env store agentIds fuel
          { messages := messages2 ++ [conductorEntry agentResponse],
            turnCount := st.turnCount + 1,
            agentIndex := (st.agentIndex + 1) % agentIds.length }

/-- The value runMultiAgentConductor resolves with (line 270). -/
structure ConductorResult where
  messages : List Message
deriving DecidableEq

/-- runMultiAgentConductor (src/server.js lines 227-271).  The JavaScript
default max_turns = 6 is supplied by the callers in this file explicitly. -/
def runMultiAgentConductor (env : Env) (store : List Agent) (agentIds : List Int)
    (messages : List Message) (max_turns : Nat) : Except String ConductorResult :=
  match conductorLoop env store agentIds max_turns
      { messages := messages, turnCount := 0, agentIndex := 0 } with
  | .error e => .error e
  | .ok st => .ok { messages := st.messages }

/-- createAgent (src/server.js lines 80-89).  `now` is the Date.now() reading
at creation time. -/
def createAgent (now : Int) (name : String) (model : String)
    (systemMsg : Option String) : Agent :=
  { id := now, name := name, model := model, systemMsg := systemMsg,
    tools := [], history := [] }

/-- JavaScript falsiness of an id taken from a request body (undefined or 0). -/
def jsFalsyInt : Option Int → Bool
  | none => true
  | some n => n == 0

/-- JavaScript falsiness of a string taken from a request body. -/
def jsFalsyStr : Option String → Bool
  | none => true
  | some s => s == ""

/-- The response of the /start-conversation route. -/
inductive StartConvResp where
  | badRequest (error : String)
  | okJson (conversation : ConductorResult)
  | serverError (error : String)
deriving DecidableEq

/-- Line 383: maxTurns || 6.  A maxTurns of 0 is falsy in JavaScript, so it is
replaced by the default 6 exactly like an absent maxTurns. -/
def maxTurnsOrSix : Option Nat → Nat
  | none => 6
  | some 0 => 6
  | some (n + 1) => n + 1

/-- The /start-conversation route handler (src/server.js lines 368-391).  The
agentIds.map(Number) at line 381 is the identity here because the ids arrive
already as integers.  The catch at lines 387-390 turns any exception escaping
the conductor into a 500 response. -/
def startConversation (env : Env) (store : List Agent) (agentIds : List Int)
    (userInput : Option String) (maxTurns : Option Nat) : StartConvResp :=
  if agentIds.length = 0 then
    .badRequest "agentIds must be a non-empty array"
  else
    let messages : List Message := [{ role := some "user", content := some (jsOr userInput "") }]
    match runMultiAgentConductor env store agentIds messages (maxTurnsOrSix maxTurns) with
    | .error _ => .serverError "Something went wrong."
    | .ok conversation => .okJson conversation

/-- The response of the /add-tool route.  `thrown` is an exception escaping
the handler (the route has no try/catch). -/
inductive AddToolResp where
  | badRequest (error : String)
  | notFound (error : String)
  | okSuccess (agent : Agent)
  | thrown (error : String)

/-- Whether an /add-tool response is the success shape. -/
def AddToolResp.isSuccess : AddToolResp → Bool
  | .okSuccess _ => true
  | _ => false

/-- Line 333: agent.tools.some(tool => tool.details.name === toolName), with
the JavaScript left-to-right short-circuit evaluation: reading .details of an
undefined entry throws before later entries are inspected. -/
def toolsSomeName : List (Option ToolEntry) → String → Except String Bool
  | [], _ => .ok false
  | none :: _, _ =>
      .error "TypeError: Cannot read properties of undefined (reading details)"
  | some t :: rest, toolName =>
    if t.details.name == some toolName then .ok true else toolsSomeName rest toolName

/-- In-place mutation of the first agent matching an id, as produced by
agents.find followed by a push on the found object. -/
def updateFirstAgent : List Agent → Int → (Agent → Agent) → List Agent
  | [], _, _ => []
  | a :: rest, i, f => if a.id == i then f a :: rest else a :: updateFirstAgent rest i f

/-- The /add-tool route handler (src/server.js lines 319-341).  Note line 338
pushes tools[toolName] onto agent.tools without checking that the name was
discovered: an unknown name pushes undefined and the route still reports
success.  Returns the response together with the store after the call. -/
def addTool (env : Env) (store : List Agent) (agentId : Option Int)
    (toolName : Option String) : AddToolResp × List Agent :=
  if jsFalsyInt agentId || jsFalsyStr toolName then
    (.badRequest "agentId and toolName are required", store)
  else
    let aid := agentId.getD 0
    let tname := toolName.getD ""
    match findAgent store (some aid) with
    | none => (.notFound ("Agent with id=" ++ toString aid ++ " not found."), store)
    | some agent =>
      match toolsSomeName agent.tools tname with
      | .error e => (.thrown e, store)
      | .ok true => (.badRequest "Tool with this name is already assigned.", store)
      | .ok false =>
        match env.getTools with
        | .error e => (.thrown e, store)
        | .ok tools =>
          ((.okSuccess { agent with tools := agent.tools ++ [lookupTool tools tname] }),
           updateFirstAgent store aid
             (fun a => { a with tools := a.tools ++ [lookupTool tools tname] }))

/-- The response of the /create-agent route. -/
inductive CreateAgentResp where
  | badRequest (error : String)
  | okNew (newagent : Agent)

/-- The /create-agent route handler (src/server.js lines 290-299). -/
def createAgentRoute (now : Int) (name model systemMsg : Option String)
    (store : List Agent) : CreateAgentResp × List Agent :=
  if jsFalsyStr name || jsFalsyStr model then
    (.badRequest "name and model are required", store)
  else
    let a := createAgent now (name.getD "") (model.getD "") systemMsg
    (.okNew a, store ++ [a])

/-! Concrete fixtures used by counterexamples and witnesses. -/

/-- The opening user message of the concrete conversations below. -/
def uHi : Message := { role := some "user", content := some "hi" }

/-- The transcript entry pushed when the responder result has neither a role
nor a content property: every field is absent. -/
def blankMsg : Message := {}

/-- A registry entry whose details name matches its key. -/
def toolEntryK : ToolEntry :=
  { details := { name := some "t" }, execute := fun _ => .ok Json.null }

/-- An agent without tools, created at clock reading 1. -/
def agentPlain : Agent := createAgent 1 "A" "gpt-4o" none

/-- The same agent with one assigned tool, so its schema list is non-empty. -/
def agentK : Agent := { agentPlain with tools := [some toolEntryK] }

/-- A base environment: tool discovery finds nothing, file writes succeed,
the model is never reachable. -/
def envBase : Env :=
  { chat := fun _ => .error "no model configured",
    parseJson := fun _ => none,
    stringify := fun _ => "null",
    writeFile := fun _ => .ok (),
    getTools := .ok [] }

/-- A model that replies with plain free text and no tool call. -/
def envC2 : Env := { envBase with chat := fun _ => .ok (some { content := some "hello" }) }

/-- A model call that fails (network error). -/
def envC6 : Env := { envBase with chat := fun _ => .error "network down" }

/-- A model that replies with text containing a fenced code block. -/
def envC8 : Env :=
  { envBase with chat := fun _ => .ok (some { content := some "a```b```c" }) }

/-- A tool call requesting the unknown tool "mystery". -/
def tcMystery : ToolCall :=
  { id := "call_1", function := { name := "mystery", arguments := some "\x7b\x7d" } }

/-- A model reply requesting the unknown tool "mystery". -/
def toolCallMsg : Message :=
  { content := some "use tool", tool_calls := some [tcMystery] }

/-- A model that requests the unknown tool. -/
def envC9 : Env :=
  { envBase with chat := fun _ => .ok (some toolCallMsg), parseJson := fun _ => some [] }


/-! Helper notions and lemmas shared by several claim theorems. -/

/-- Transcript l2 is transcript l1 extended purely by appending entries. -/
def ExtendsTranscript (l1 l2 : List Message) : Prop := ∃ t, l1 ++ t = l2

theorem extendsTranscript_refl (l : List Message) : ExtendsTranscript l l := ⟨[], by simp⟩

theorem extendsTranscript_append (l t : List Message) : ExtendsTranscript l (l ++ t) := ⟨t, rfl⟩

theorem extendsTranscript_trans {a b c : List Message}
    (h1 : ExtendsTranscript a b) (h2 : ExtendsTranscript b c) : ExtendsTranscript a c := by
  obtain ⟨t1, rfl⟩ := h1
  obtain ⟨t2, rfl⟩ := h2
  exact ⟨t1 ++ t2, by simp⟩

theorem extendsTranscript_length {a b : List Message}
    (h : ExtendsTranscript a b) : a.length ≤ b.length := by
  obtain ⟨t, rfl⟩ := h
  simp

/-- The try body never mutates existing transcript entries: the messages array
it hands back is the one it received, possibly extended by appended entries. -/
theorem respTry_extends (env : Env) (agent : Agent) (messages chatMessages : List Message)
    (schema : List ToolDetails) :
    ExtendsTranscript messages (respTry env agent messages chatMessages schema).1 := by
  unfold respTry
  dsimp only
  repeat' split
  all_goals dsimp only
  all_goals
    first
      | exact extendsTranscript_refl _
      | exact extendsTranscript_append _ _

/-- The single-turn responder only appends to the messages array. -/
theorem getCompletion_extends {env : Env} {agent : Agent} {msgs : List Message}
    {r : Option AgentResult} {msgs2 : List Message}
    (h : getCompletionFromAgent env agent msgs = .ok (r, msgs2)) :
    ExtendsTranscript msgs msgs2 := by
  unfold getCompletionFromAgent at h
  dsimp only at h
  split at h
  · exact absurd h (by simp)
  · rename_i schema hs
    have hx := respTry_extends env agent msgs (systemMessage agent :: msgs) schema
    split at h
    all_goals
      injection h with h
      injection h with h1 h2
      rw [← h2]
      exact hx

/-- The conductor loop only appends to the transcript, from any starting
state and for any turn budget. -/
theorem conductorLoop_extends (env : Env) (store : List Agent) (ids : List Int) :
    ∀ (fuel : Nat) (st st' : ConductorState),
      conductorLoop env store ids fuel st = .ok st' →
      ExtendsTranscript st.messages st'.messages := by
  intro fuel
  induction fuel with
  | zero =>
    intro st st' h
    simp only [conductorLoop] at h
    injection h with h
    rw [← h]
    exact extendsTranscript_refl _
  | succ n ih =>
    intro st st' h
    simp only [conductorLoop] at h
    split at h
    · injection h with h
      rw [← h]
      exact extendsTranscript_append _ _
    · split at h
      · exact absurd h (by simp)
      · exact absurd h (by simp)
      · rename_i agent hfind resp messages2 hresp
        have h1 := getCompletion_extends hresp
        have h2 := ih _ _ h
        exact extendsTranscript_trans
          (extendsTranscript_trans h1 (extendsTranscript_append messages2 [conductorEntry resp])) h2

/-- Every id in the round-robin list resolves in the store. -/
def allIdsResolve (store : List Agent) (ids : List Int) : Bool :=
  ids.all (fun i => (findAgent store (some i)).isSome)

theorem allIdsResolve_get {store : List Agent} {ids : List Int}
    (hall : allIdsResolve store ids = true) {j : Nat} (hj : j < ids.length) :
    (findAgent store (ids.get? j)).isSome := by
  rw [List.get?_eq_get hj]
  exact List.all_eq_true.mp hall _ (ids.get_mem j hj)

/-- When every listed id resolves, a successful conductor run from any state
performs exactly `fuel` turns and appends at least one entry per turn. -/
theorem conductorLoop_counts (env : Env) (store : List Agent) (ids : List Int)
    (hall : allIdsResolve store ids = true) :
    ∀ (fuel : Nat) (st st' : ConductorState), st.agentIndex < ids.length →
      conductorLoop env store ids fuel st = .ok st' →
      st'.turnCount = st.turnCount + fuel ∧
      st.messages.length + fuel ≤ st'.messages.length := by
  intro fuel
  induction fuel with
  | zero =>
    intro st st' _ h
    simp only [conductorLoop] at h
    injection h with h
    rw [← h]
    omega
  | succ n ih =>
    intro st st' hidx h
    simp only [conductorLoop] at h
    split at h
    · rename_i hfind
      exfalso
      have hres := allIdsResolve_get hall hidx
      rw [hfind] at hres
      simp at hres
    · split at h
      · exact absurd h (by simp)
      · exact absurd h (by simp)
      · rename_i agent hfind resp messages2 hresp
        have hlen : st.messages.length ≤ messages2.length :=
          extendsTranscript_length (getCompletion_extends hresp)
        have hnext : (st.agentIndex + 1) % ids.length < ids.length :=
          Nat.mod_lt _ (by omega)
        have := ih _ _ hnext h
        simp only [List.length_append, List.length_cons, List.length_nil] at this ⊢
        omega

/-- The responder result of the successful code-fence turn below. -/
def asstC8 : AgentResult := { role := some "assistant", content := some "a```b```c" }

/-- True when an Except value is ok, i.e. when no exception escaped. -/
def exceptIsOk {e a : Type} : Except e a → Bool
  | .ok _ => true
  | .error _ => false

/-! Claim theorems. -/

/-- C1 counterexample: starting a conversation through the /start-conversation
entry point with maxTurns = 0 does NOT return the opening message unchanged:
maxTurns || 6 treats 0 as absent, so the run performs the default 6 turns and
the transcript has 7 entries instead of 1. -/
theorem C1_counterexample :
    startConversation envBase [agentK] [1] (some "hi") (some 0)
        = .okJson ⟨[uHi, blankMsg, blankMsg, blankMsg, blankMsg, blankMsg, blankMsg]⟩ ∧
    ([uHi, blankMsg, blankMsg, blankMsg, blankMsg, blankMsg, blankMsg] : List Message)
        ≠ [uHi] :=
  ⟨rfl, by decide⟩

/-- C1 (amended): for every direct Conductor run with turn budget N whose
listed agent ids all resolve in the store, a run that returns performs exactly
N turns and appends at least one transcript entry per turn (the entry copies
the role and content of the responder result, which need not be an assistant
message; a tool round-trip appends two further entries); a direct run with
max_turns = 0 returns the opening messages unchanged; but the
/start-conversation entry point replaces maxTurns = 0 by the default 6. -/
theorem C1_amended :
    (∀ (env : Env) (store : List Agent) (ids : List Int) (opening : List Message)
        (N : Nat) (st' : ConductorState),
        allIdsResolve store ids = true → 0 < ids.length →
        conductorLoop env store ids N ⟨opening, 0, 0⟩ = .ok st' →
        st'.turnCount = N ∧ opening.length + N ≤ st'.messages.length) ∧
    (∀ (env : Env) (store : List Agent) (ids : List Int) (opening : List Message),
        runMultiAgentConductor env store ids opening 0 = .ok ⟨opening⟩) ∧
    (∀ (env : Env) (store : List Agent) (ids : List Int) (u : Option String),
        startConversation env store ids u (some 0) = startConversation env store ids u none) := by
  refine ⟨fun env store ids opening N st' hall hlen h => ?_,
          fun env store ids opening => rfl,
          fun env store ids u => rfl⟩
  have := conductorLoop_counts env store ids hall N ⟨opening, 0, 0⟩ st' hlen h
  simpa using this

/-- Witness for C1 (amended) at a concrete two-turn run. -/
theorem C1_amended_witness :
    allIdsResolve [agentK] [1] = true ∧ 0 < ([1] : List Int).length ∧
    conductorLoop envBase [agentK] [1] 2 ⟨[uHi], 0, 0⟩
        = .ok ⟨[uHi, blankMsg, blankMsg], 2, 0⟩ ∧
    ((⟨[uHi, blankMsg, blankMsg], 2, 0⟩ : ConductorState).turnCount = 2 ∧
      ([uHi] : List Message).length + 2
        ≤ (⟨[uHi, blankMsg, blankMsg], 2, 0⟩ : ConductorState).messages.length) :=
  ⟨rfl, by decide, rfl,
    C1_amended.1 envBase [agentK] [1] [uHi] 2 ⟨[uHi, blankMsg, blankMsg], 2, 0⟩ rfl
      (by decide) rfl⟩

/-- C2 (code bug): for an agent with no tools whose model reply is plain free
text without a code fence and without a tool call, the Responder does NOT
return the assistant message the claim describes: line 151 evaluates
message.tool_calls[0] on an undefined tool_calls property, and the resulting
TypeError is caught at line 209, so the caller receives the error fallback
value with no role and no content instead of role assistant and the reply
text. -/
theorem C2_code_bug :
    getCompletionFromAgent envC2 agentPlain [uHi]
        = .ok (some (errorResult typeErrorToolCalls), [uHi]) ∧
    (errorResult typeErrorToolCalls).role ≠ some "assistant" ∧
    (errorResult typeErrorToolCalls).content = none :=
  ⟨rfl, by decide, rfl⟩

/-- C3: from any state and with any turn budget, a conductor run that returns
yields a transcript that extends the starting transcript purely by appended
entries (so the opening messages are an unmodified prefix and the final length
is at least the starting length); instantiated at intermediate states this
also says every step of the run only appends. -/
theorem C3_transcript_append_only :
    ∀ (env : Env) (store : List Agent) (ids : List Int) (fuel : Nat)
      (st st' : ConductorState),
      conductorLoop env store ids fuel st = .ok st' →
      ExtendsTranscript st.messages st'.messages ∧
      st.messages.length ≤ st'.messages.length :=
  fun env store ids fuel st st' h =>
    ⟨conductorLoop_extends env store ids fuel st st' h,
     extendsTranscript_length (conductorLoop_extends env store ids fuel st st' h)⟩

/-- Witness for C3 at a concrete two-turn run. -/
theorem C3_transcript_append_only_witness :
    conductorLoop envBase [agentK] [1] 2 ⟨[uHi], 0, 0⟩
        = .ok ⟨[uHi, blankMsg, blankMsg], 2, 0⟩ ∧
    (ExtendsTranscript [uHi] [uHi, blankMsg, blankMsg] ∧
      ([uHi] : List Message).length ≤ ([uHi, blankMsg, blankMsg] : List Message).length) :=
  ⟨rfl, C3_transcript_append_only envBase [agentK] [1] 2 ⟨[uHi], 0, 0⟩
          ⟨[uHi, blankMsg, blankMsg], 2, 0⟩ rfl⟩

/-- C4: when the first resolved agent id is absent from the store and the turn
budget allows at least one turn, the run appends exactly one diagnostic system
message, stops, and the turn count stays at 0. -/
theorem C4_unknown_first_agent :
    ∀ (env : Env) (store : List Agent) (ids : List Int) (opening : List Message) (m : Nat),
      findAgent store (ids.get? 0) = none →
      conductorLoop env store ids (m + 1) ⟨opening, 0, 0⟩
          = .ok ⟨opening ++ [notFoundMessage (ids.get? 0)], 0, 0⟩ ∧
      runMultiAgentConductor env store ids opening (m + 1)
          = .ok ⟨opening ++ [notFoundMessage (ids.get? 0)]⟩ := by
  intro env store ids opening m h
  constructor
  · simp only [conductorLoop]
    rw [h]
  · simp only [runMultiAgentConductor, conductorLoop]
    rw [h]

/-- Witness for C4: a run over the unknown id 999 with budget 6. -/
theorem C4_unknown_first_agent_witness :
    findAgent [agentK] (([999] : List Int).get? 0) = none ∧
    (conductorLoop envBase [agentK] [999] (5 + 1) ⟨[uHi], 0, 0⟩
        = .ok ⟨[uHi] ++ [notFoundMessage (([999] : List Int).get? 0)], 0, 0⟩ ∧
     runMultiAgentConductor envBase [agentK] [999] [uHi] (5 + 1)
        = .ok ⟨[uHi] ++ [notFoundMessage (([999] : List Int).get? 0)]⟩) :=
  ⟨rfl, C4_unknown_first_agent envBase [agentK] [999] [uHi] 5 rfl⟩

/-- C5 counterexample: assigning a tool name absent from the current discovery
does NOT fail: the /add-tool route succeeds and pushes an undefined entry onto
the agent tool array. -/
theorem C5_counterexample :
    (addTool envBase [agentPlain] (some 1) (some "ghost")).1.isSuccess = true ∧
    (addTool envBase [agentPlain] (some 1) (some "ghost")).2
        = [{ agentPlain with tools := [none] }] :=
  ⟨rfl, rfl⟩

/-- C5 (amended): if the agent already holds a tool entry whose details name
equals the given name, the call fails with the duplicate-tool rejection and
the store is unchanged; but a name absent from the current discovery does not
fail: the call succeeds and appends an undefined entry to the agent tools. -/
theorem C5_amended :
    (∀ (env : Env) (store : List Agent) (aid : Int) (tname : String) (ag : Agent),
        jsFalsyInt (some aid) = false → jsFalsyStr (some tname) = false →
        findAgent store (some aid) = some ag →
        toolsSomeName ag.tools tname = .ok true →
        addTool env store (some aid) (some tname)
          = (.badRequest "Tool with this name is already assigned.", store)) ∧
    (∀ (env : Env) (store : List Agent) (aid : Int) (tname : String) (ag : Agent)
        (reg : List (String × ToolEntry)),
        jsFalsyInt (some aid) = false → jsFalsyStr (some tname) = false →
        findAgent store (some aid) = some ag →
        toolsSomeName ag.tools tname = .ok false →
        env.getTools = .ok reg →
        lookupTool reg tname = none →
        addTool env store (some aid) (some tname)
          = (.okSuccess { ag with tools := ag.tools ++ [none] },
             updateFirstAgent store aid
               (fun a => { a with tools := a.tools ++ [none] }))) := by
  constructor
  · intro env store aid tname ag h1 h2 hf hd
    simp [addTool, h1, h2, hf, hd]
  · intro env store aid tname ag reg h1 h2 hf hd hg hn
    simp [addTool, h1, h2, hf, hd, hg, hn]

/-- Witness for C5 (amended): the duplicate branch on agentK holding tool "t",
and the unknown branch on agentPlain with the undiscovered name "ghost". -/
theorem C5_amended_witness :
    jsFalsyInt (some 1) = false ∧ jsFalsyStr (some "t") = false ∧
    findAgent [agentK] (some 1) = some agentK ∧
    toolsSomeName agentK.tools "t" = .ok true ∧
    addTool envBase [agentK] (some 1) (some "t")
        = (.badRequest "Tool with this name is already assigned.", [agentK]) ∧
    toolsSomeName agentPlain.tools "ghost" = .ok false ∧
    lookupTool [] "ghost" = none ∧
    addTool envBase [agentPlain] (some 1) (some "ghost")
        = (.okSuccess { agentPlain with tools := agentPlain.tools ++ [none] },
           updateFirstAgent [agentPlain] 1
             (fun a => { a with tools := a.tools ++ [none] })) :=
  ⟨rfl, rfl, rfl, rfl,
   C5_amended.1 envBase [agentK] 1 "t" agentK rfl rfl rfl rfl,
   rfl, rfl,
   C5_amended.2 envBase [agentPlain] 1 "ghost" agentPlain [] rfl rfl rfl rfl rfl rfl⟩

/-- C6 counterexample: a failing model call does NOT propagate out of the
Responder: the try/catch converts it into the ordinary error fallback value
and the call returns ok. -/
theorem C6_counterexample :
    getCompletionFromAgent envC6 agentPlain [uHi]
        = .ok (some (errorResult "network down"), [uHi]) ∧
    exceptIsOk (getCompletionFromAgent envC6 agentPlain [uHi]) = true :=
  ⟨rfl, rfl⟩

/-- C6 (amended): every failure inside the turn, including model-call and
tool-execution failures, is caught by the try/catch of the Responder and
converted into an ordinary returned value; whenever the tool-schema
construction (the only code before the try block) succeeds, the Responder
returns normally and nothing propagates to the caller. -/
theorem C6_amended :
    ∀ (env : Env) (agent : Agent) (messages : List Message) (schema : List ToolDetails),
      schemaOf agent.tools = .ok schema →
      exceptIsOk (getCompletionFromAgent env agent messages) = true := by
  intro env agent messages schema hs
  unfold getCompletionFromAgent
  dsimp only
  rw [hs]
  dsimp only
  split <;> rfl

/-- Witness for C6 (amended) at the failing model call of envC6. -/
theorem C6_amended_witness :
    schemaOf agentPlain.tools = .ok [] ∧
    exceptIsOk (getCompletionFromAgent envC6 agentPlain [uHi]) = true :=
  ⟨rfl, C6_amended envC6 agentPlain [uHi] [] rfl⟩

/-- C7 (code bug): two distinct agent creations during the same Date.now()
millisecond receive the SAME identity, contradicting the claimed uniqueness
(and the id comment in the source). -/
theorem C7_code_bug :
    (createAgent 1700000000000 "Alice" "gpt-4o" none).id
        = (createAgent 1700000000000 "Bob" "gpt-4o" none).id ∧
    ("Alice" : String) ≠ "Bob" :=
  ⟨rfl, by decide⟩

/-- C8 counterexample: a successful plain-text turn (the code-fence path)
appends an assistant message carrying NO name property: the conductor copies
only role and content, so the entry is not attributed to agent "A". -/
theorem C8_counterexample :
    runMultiAgentConductor envC8 [agentPlain] [1] [uHi] 1
        = .ok ⟨[uHi, { role := some "assistant", content := some "a```b```c" }]⟩ ∧
    (Message.name { role := some "assistant", content := some "a```b```c" }) = none ∧
    (none : Option String) ≠ some agentPlain.name :=
  ⟨rfl, rfl, by decide⟩

/-- C8 (amended): on every successful turn the conductor appends the entry
built by copying only the role and content of the responder result; the
appended entry carries no name property, so no agent-name attribution is
made. -/
theorem C8_amended :
    ∀ (env : Env) (store : List Agent) (ids : List Int) (fuel : Nat)
      (st : ConductorState) (ag : Agent) (resp : AgentResult) (messages2 : List Message),
      findAgent store (ids.get? st.agentIndex) = some ag →
      getCompletionFromAgent env ag st.messages = .ok (some resp, messages2) →
      conductorLoop env store ids (fuel + 1) st
        = conductorLoop env store ids fuel
            ⟨messages2 ++ [conductorEntry resp], st.turnCount + 1,
             (st.agentIndex + 1) % ids.length⟩ ∧
      (conductorEntry resp).name = none := by
  intro env store ids fuel st ag resp messages2 hf hg
  refine ⟨?_, rfl⟩
  simp only [conductorLoop]
  rw [hf]
  dsimp only
  rw [hg]

/-- Witness for C8 (amended) at the concrete code-fence turn. -/
theorem C8_amended_witness :
    findAgent [agentPlain] (([1] : List Int).get? 0) = some agentPlain ∧
    getCompletionFromAgent envC8 agentPlain [uHi] = .ok (some asstC8, [uHi]) ∧
    (conductorLoop envC8 [agentPlain] [1] (0 + 1) ⟨[uHi], 0, 0⟩
        = conductorLoop envC8 [agentPlain] [1] 0
            ⟨[uHi] ++ [conductorEntry asstC8], 0 + 1, (0 + 1) % ([1] : List Int).length⟩ ∧
     (conductorEntry asstC8).name = none) :=
  ⟨rfl, rfl,
   C8_amended envC8 [agentPlain] [1] 0 ⟨[uHi], 0, 0⟩ agentPlain asstC8 [uHi] rfl rfl⟩

/-- C9 counterexample: when the model requests a tool absent from the current
discovery, the Responder returns the bare fallback value with only the
message property: no role and no content, so no assistant message stating the
tool was not found. -/
theorem C9_counterexample :
    getCompletionFromAgent envC9 agentPlain [uHi] = .ok (some noFnResult, [uHi]) ∧
    noFnResult.role = none ∧ noFnResult.content = none :=
  ⟨rfl, rfl, rfl⟩

/-- C9 (amended): on a turn in which the model requests a tool whose name is
absent from the current discovery, the Responder returns the bare value whose
only populated property is message = "No function call detected." (no role, no
content), and leaves the transcript unchanged. -/
theorem C9_amended :
    ∀ (env : Env) (agent : Agent) (msgs : List Message) (m1 : Message) (c : String)
      (r2 : Option Message) (tc : ToolCall) (rest : List ToolCall)
      (reg : List (String × ToolEntry)),
      schemaOf agent.tools = .ok [] →
      env.chat { model := agent.model, messages := systemMessage agent :: msgs,
                 tools := none } = .ok (some m1) →
      m1.content = some c →
      hasCodeFence c = false →
      env.chat { model := agent.model, messages := systemMessage agent :: msgs,
                 tools := some [] } = .ok r2 →
      m1.tool_calls = some (tc :: rest) →
      env.getTools = .ok reg →
      lookupTool reg tc.function.name = none →
      getCompletionFromAgent env agent msgs = .ok (some noFnResult, msgs) := by
  intro env agent msgs m1 c r2 tc rest reg hs h1 hc hfence h2 htc hreg hlk
  simp [getCompletionFromAgent, respTry, hs, h1, hc, hfence, h2, htc, hreg, hlk]

/-- Witness for C9 (amended) at the concrete unknown-tool request. -/
theorem C9_amended_witness :
    schemaOf agentPlain.tools = .ok [] ∧
    envC9.chat { model := agentPlain.model, messages := systemMessage agentPlain :: [uHi],
                 tools := none } = .ok (some toolCallMsg) ∧
    toolCallMsg.content = some "use tool" ∧
    hasCodeFence "use tool" = false ∧
    toolCallMsg.tool_calls = some (tcMystery :: []) ∧
    lookupTool [] tcMystery.function.name = none ∧
    getCompletionFromAgent envC9 agentPlain [uHi] = .ok (some noFnResult, [uHi]) :=
  ⟨rfl, rfl, rfl, rfl, rfl, rfl,
   C9_amended envC9 agentPlain [uHi] toolCallMsg "use tool" (some toolCallMsg) tcMystery [] []
     rfl rfl rfl rfl rfl rfl rfl rfl⟩

/-- C10: when the responder hands back one of its fallback values (a value
carrying only an error or message property, with no role and no content), the
conductor still appends one transcript entry whose role and content are both
absent, increments the turn count, advances to the next agent, and keeps
looping: such a failure consumes turn budget and does not abort the run. -/
theorem C10_failure_consumes_turn :
    ∀ (env : Env) (store : List Agent) (ids : List Int) (fuel : Nat)
      (st : ConductorState) (ag : Agent) (resp : AgentResult) (messages2 : List Message),
      findAgent store (ids.get? st.agentIndex) = some ag →
      getCompletionFromAgent env ag st.messages = .ok (some resp, messages2) →
      resp.role = none → resp.content = none →
      (resp.error ≠ none ∨ resp.messageStr ≠ none) →
      conductorLoop env store ids (fuel + 1) st
        = conductorLoop env store ids fuel
            ⟨messages2 ++ [blankMsg], st.turnCount + 1, (st.agentIndex + 1) % ids.length⟩ := by
  intro env store ids fuel st ag resp messages2 hf hg hrole hcontent _
  have hentry : conductorEntry resp = blankMsg := by
    simp [conductorEntry, blankMsg, hrole, hcontent]
  simp only [conductorLoop]
  rw [hf]
  dsimp only
  rw [hg]
  dsimp only
  rw [hentry]

/-- Witness for C10 at the concrete fallback turn of agentK (whose non-empty
schema makes the responder return the bare message-only value). -/
theorem C10_failure_consumes_turn_witness :
    findAgent [agentK] (([1] : List Int).get? 0) = some agentK ∧
    getCompletionFromAgent envBase agentK [uHi] = .ok (some noFnResult, [uHi]) ∧
    noFnResult.role = none ∧ noFnResult.content = none ∧ noFnResult.messageStr ≠ none ∧
    conductorLoop envBase [agentK] [1] (0 + 1) ⟨[uHi], 0, 0⟩
      = conductorLoop envBase [agentK] [1] 0
          ⟨[uHi] ++ [blankMsg], 0 + 1, (0 + 1) % ([1] : List Int).length⟩ :=
  ⟨rfl, rfl, rfl, rfl, by simp [noFnResult],
   C10_failure_consumes_turn envBase [agentK] [1] 0 ⟨[uHi], 0, 0⟩ agentK noFnResult [uHi]
     rfl rfl rfl rfl (Or.inr (by simp [noFnResult]))⟩
